import Mathlib

/-!
Shallow embedding of the ApproachingFeeder auto_lock controller
(src/auto_lock/lock_controller.hpp) together with the HTTP facade of the
mock server (src/auto_lock/mock/mock_main.cpp) and the storage behaviour
of the mock/hardware backends (mock_stepper.hpp, uln2003_stepper.hpp).

Modelling conventions:
- the C++ `int` fields are modelled as `Int` (no operation here can
  overflow in the scenarios the spec quantifies over, and the source
  performs plain signed arithmetic);
- the virtual `moveSteps` calls issued by an operation are collected in a
  `moves : List Int` output (one entry per call, the signed step count);
- the virtual `saveToStorage` has return type `void` in C++; both concrete
  backends report failure only on a log stream.  The file-open /
  NVS-write outcome is an environment input `saveOk : Bool` and the
  observable logging is collected as `storage : List StorageEvent`;
- the HTTP handlers are modelled as pure functions from controller state
  (plus parsed request fields) to new state, issued moves and a response
  consisting of a status code and a structured body.
-/

namespace AutoLock

/-- `constexpr int SMALL_STEP = 10` from lock_controller.hpp. -/
def SMALL_STEP : Int := 10

/-- `constexpr int LARGE_STEP = 50` from lock_controller.hpp. -/
def LARGE_STEP : Int := 50

/-- `enum class LockMode { NORMAL, SETUP }`. -/
inductive LockMode
  | NORMAL
  | SETUP
deriving DecidableEq

/-- The mutable fields of `StepperController` with their C++ initializers. -/
structure ControllerState where
  current_position : Int := 0
  lock_position : Int := 0
  unlock_position : Int := 0
  mode : LockMode := LockMode.SETUP
  pending_return_to_center : Bool := false
deriving DecidableEq

/-- The freshly constructed controller (all C++ member initializers). -/
def initialState : ControllerState := {}

/-- Observable effect of the concrete `saveToStorage` implementations:
the mock writes the config file and logs success, or logs a failure to
stderr; the hardware backend writes NVS.  Neither returns anything. -/
inductive StorageEvent
  | saved (lockPos unlockPos : Int)
  | saveFailed
deriving DecidableEq

/-- Output of an operation that may call `moveSteps`. -/
structure MotorOut (α : Type) where
  state : ControllerState
  moves : List Int
  ret : α
deriving DecidableEq

/-- Output of an operation that calls `saveToStorage`. -/
structure StoreOut where
  state : ControllerState
  storage : List StorageEvent
  ret : Int
deriving DecidableEq

/-- `StepperController::stepForward` (lock_controller.hpp:113-121). -/
def stepForward (s : ControllerState) (steps : Int) : MotorOut Int :=
  if steps > 0 then
    let s1 := { s with current_position := s.current_position + steps }
    ⟨s1, [steps], s1.current_position⟩
  else
    ⟨s, [], s.current_position⟩

/-- `StepperController::stepBackward` (lock_controller.hpp:128-136). -/
def stepBackward (s : ControllerState) (steps : Int) : MotorOut Int :=
  if steps > 0 then
    let s1 := { s with current_position := s.current_position - steps }
    ⟨s1, [-steps], s1.current_position⟩
  else
    ⟨s, [], s.current_position⟩

/-- `StepperController::setCenter` (lock_controller.hpp:144-148):
writes `current_position = 0` directly, with no `moveSteps` call. -/
def setCenter (s : ControllerState) : ControllerState × Int :=
  ({ s with current_position := 0 }, 0)

/-- The concrete `saveToStorage` backends: on success the positions are
written and logged, on failure only an error line is printed; the caller
receives nothing either way (the C++ function returns `void`). -/
def saveToStorage (saveOk : Bool) (s : ControllerState) : StorageEvent :=
  if saveOk then StorageEvent.saved s.lock_position s.unlock_position
  else StorageEvent.saveFailed

/-- `StepperController::setLockPosition` (lock_controller.hpp:155-160):
updates the in-memory value first, then calls `saveToStorage`. -/
def setLockPosition (saveOk : Bool) (s : ControllerState) : StoreOut :=
  let s1 := { s with lock_position := s.current_position }
  ⟨s1, [saveToStorage saveOk s1], s1.lock_position⟩

/-- `StepperController::setUnlockPosition` (lock_controller.hpp:167-172). -/
def setUnlockPosition (saveOk : Bool) (s : ControllerState) : StoreOut :=
  let s1 := { s with unlock_position := s.current_position }
  ⟨s1, [saveToStorage saveOk s1], s1.unlock_position⟩

/-- `StepperController::lock` (lock_controller.hpp:182-192). -/
def lock (s : ControllerState) : MotorOut Int :=
  let delta := s.lock_position - s.current_position
  let (s1, mvs) :=
    if delta ≠ 0 then
      ({ s with current_position := s.lock_position }, [delta])
    else
      (s, ([] : List Int))
  let s2 := { s1 with pending_return_to_center := true }
  ⟨s2, mvs, s2.current_position⟩

/-- `StepperController::unlock` (lock_controller.hpp:200-210). -/
def unlock (s : ControllerState) : MotorOut Int :=
  let delta := s.unlock_position - s.current_position
  let (s1, mvs) :=
    if delta ≠ 0 then
      ({ s with current_position := s.unlock_position }, [delta])
    else
      (s, ([] : List Int))
  let s2 := { s1 with pending_return_to_center := true }
  ⟨s2, mvs, s2.current_position⟩

/-- `StepperController::processReturnToCenter` (lock_controller.hpp:218-233). -/
def processReturnToCenter (s : ControllerState) : MotorOut Bool :=
  if s.pending_return_to_center = false then
    ⟨s, [], false⟩
  else
    let s1 := { s with pending_return_to_center := false }
    let delta := -s1.current_position
    if delta ≠ 0 then
      ⟨{ s1 with current_position := 0 }, [delta], true⟩
    else
      ⟨s1, [], true⟩

/-- `StepperController::setMode` (lock_controller.hpp:89). -/
def setMode (s : ControllerState) (new_mode : LockMode) : ControllerState :=
  { s with mode := new_mode }

/-- `StepperController::setModeFromString` (lock_controller.hpp:91-104). -/
def setModeFromString (s : ControllerState) (mode_str : String) :
    ControllerState × Bool :=
  if mode_str = "setup" then
    ({ s with mode := LockMode.SETUP }, true)
  else if mode_str = "normal" then
    ({ s with mode := LockMode.NORMAL }, true)
  else
    (s, false)

/-- The concrete `loadFromStorage` backends: the stored pair when a config
exists, `(0, 0)` otherwise (mock_stepper.hpp:60-101 defaults both fields
to 0 when no file is found; the NVS backend uses `getInt(key, 0)`). -/
def loadFromStorage (stored : Option (Int × Int)) (s : ControllerState) :
    ControllerState :=
  match stored with
  | some (lp, up) => { s with lock_position := lp, unlock_position := up }
  | none => { s with lock_position := 0, unlock_position := 0 }

/-- `StepperController::begin` (lock_controller.hpp:66-74): load the
persisted positions, then promote to NORMAL iff they differ. -/
def begin (stored : Option (Int × Int)) (s : ControllerState) :
    ControllerState :=
  let s1 := loadFromStorage stored s
  if s1.lock_position ≠ s1.unlock_position then
    { s1 with mode := LockMode.NORMAL }
  else
    s1

-- ---------------------------------------------------------------------
-- HTTP facade (mock_main.cpp handlers), modelled on parsed request data.
-- ---------------------------------------------------------------------

/-- Structured view of the JSON bodies the handlers serialize. -/
inductive ApiBody
  | errorMsg (msg : String)
  | position (p : Int)
  | lockPos (p : Int)
  | unlockPos (p : Int)
  | modeStr (m : String)
deriving DecidableEq

/-- An HTTP response: status code plus serialized body. -/
structure HttpResponse where
  status : Nat
  body : ApiBody
deriving DecidableEq

/-- Parsed fields of a `POST /step` body; an empty string models a missing
`direction`/`size` key (as `extractJsonString` returns `""` then), and
`steps = none` models a missing `steps` key. -/
structure StepRequest where
  direction : String
  size : String
  steps : Option Int
deriving DecidableEq

/-- The clamp applied to custom step counts in the `POST /step` handler:
`std::min(std::max(steps, 1), 2048)` (mock_main.cpp:219). -/
def clampCustomSteps (steps : Int) : Int :=
  min (max steps 1) 2048

/-- `POST /step` handler (mock_main.cpp:205-242). -/
def postStep (s : ControllerState) (req : StepRequest) :
    ControllerState × List Int × HttpResponse :=
  if req.direction = "" ∨ req.size = "" then
    (s, [], ⟨400, ApiBody.errorMsg "Missing direction or size"⟩)
  else
    let steps : Int :=
      if req.size = "custom" then
        clampCustomSteps (req.steps.getD SMALL_STEP)
      else if req.size = "large" then LARGE_STEP
      else SMALL_STEP
    if req.direction = "fwd" then
      let r := stepForward s steps
      (r.state, r.moves, ⟨200, ApiBody.position r.ret⟩)
    else if req.direction = "bwd" then
      let r := stepBackward s steps
      (r.state, r.moves, ⟨200, ApiBody.position r.ret⟩)
    else
      (s, [], ⟨400, ApiBody.errorMsg "Invalid direction"⟩)

/-- `POST /set_lock` handler (mock_main.cpp:261-266): always responds 200
with the new lock position; storage failure is never surfaced. -/
def postSetLock (saveOk : Bool) (s : ControllerState) :
    ControllerState × List StorageEvent × HttpResponse :=
  let r := setLockPosition saveOk s
  (r.state, r.storage, ⟨200, ApiBody.lockPos r.ret⟩)

/-- `POST /set_unlock` handler (mock_main.cpp:273-278). -/
def postSetUnlock (saveOk : Bool) (s : ControllerState) :
    ControllerState × List StorageEvent × HttpResponse :=
  let r := setUnlockPosition saveOk s
  (r.state, r.storage, ⟨200, ApiBody.unlockPos r.ret⟩)

/-- `POST /lock` handler (mock_main.cpp:285-295): rejected with a 400
error response while in SETUP mode, before any controller mutation. -/
def postLock (s : ControllerState) :
    ControllerState × List Int × HttpResponse :=
  if s.mode = LockMode.SETUP then
    (s, [], ⟨400, ApiBody.errorMsg "Cannot lock in setup mode"⟩)
  else
    let r := lock s
    (r.state, r.moves, ⟨200, ApiBody.position r.ret⟩)

/-- `POST /unlock` handler (mock_main.cpp:302-312). -/
def postUnlock (s : ControllerState) :
    ControllerState × List Int × HttpResponse :=
  if s.mode = LockMode.SETUP then
    (s, [], ⟨400, ApiBody.errorMsg "Cannot unlock in setup mode"⟩)
  else
    let r := unlock s
    (r.state, r.moves, ⟨200, ApiBody.position r.ret⟩)

/-- `POST /mode` handler (mock_main.cpp:320-337); an empty `modeStr`
models a missing `mode` key. -/
def postMode (s : ControllerState) (modeStr : String) :
    ControllerState × HttpResponse :=
  if modeStr = "" then
    (s, ⟨400, ApiBody.errorMsg "Missing mode"⟩)
  else
    let r := setModeFromString s modeStr
    if r.2 then
      (r.1, ⟨200, ApiBody.modeStr modeStr⟩)
    else
      (r.1, ⟨400, ApiBody.errorMsg "Invalid mode"⟩)

-- ---------------------------------------------------------------------
-- A uniform view of every public controller operation, keeping only the
-- state transition and the moveSteps calls it issues.
-- ---------------------------------------------------------------------

/-- The public mutating operations of `StepperController`. -/
inductive PublicOp
  | stepForwardOp (steps : Int)
  | stepBackwardOp (steps : Int)
  | setCenterOp
  | setLockPositionOp (saveOk : Bool)
  | setUnlockPositionOp (saveOk : Bool)
  | lockOp
  | unlockOp
  | processReturnToCenterOp
  | setModeOp (m : LockMode)
  | setModeFromStringOp (str : String)
deriving DecidableEq

/-- Run a public operation: resulting state and the `moveSteps` calls issued. -/
def runOp : PublicOp → ControllerState → ControllerState × List Int
  | PublicOp.stepForwardOp n, s => ((stepForward s n).state, (stepForward s n).moves)
  | PublicOp.stepBackwardOp n, s => ((stepBackward s n).state, (stepBackward s n).moves)
  | PublicOp.setCenterOp, s => ((setCenter s).1, [])
  | PublicOp.setLockPositionOp ok, s => ((setLockPosition ok s).state, [])
  | PublicOp.setUnlockPositionOp ok, s => ((setUnlockPosition ok s).state, [])
  | PublicOp.lockOp, s => ((lock s).state, (lock s).moves)
  | PublicOp.unlockOp, s => ((unlock s).state, (unlock s).moves)
  | PublicOp.processReturnToCenterOp, s =>
      ((processReturnToCenter s).state, (processReturnToCenter s).moves)
  | PublicOp.setModeOp m, s => (setMode s m, [])
  | PublicOp.setModeFromStringOp str, s => ((setModeFromString s str).1, [])

-- ---------------------------------------------------------------------
-- Claims
-- ---------------------------------------------------------------------

/-- C1: for every controller state with mode == SETUP, the lock and unlock
requests are rejected with an InvalidModeError response (HTTP 400,
"Cannot lock/unlock in setup mode"), the controller state is returned
unchanged (no field mutated) and no MotionDriver move is issued. -/
theorem C1_setup_mode_rejects_lock_unlock (s : ControllerState)
    (h : s.mode = LockMode.SETUP) :
    postLock s = (s, [], ⟨400, ApiBody.errorMsg "Cannot lock in setup mode"⟩) ∧
    postUnlock s = (s, [], ⟨400, ApiBody.errorMsg "Cannot unlock in setup mode"⟩) := by
  simp [postLock, postUnlock, h]

/-- Witness for C1 at the freshly constructed controller, whose mode is SETUP. -/
theorem C1_setup_mode_rejects_lock_unlock_witness :
    postLock initialState =
      (initialState, [], ⟨400, ApiBody.errorMsg "Cannot lock in setup mode"⟩) ∧
    postUnlock initialState =
      (initialState, [], ⟨400, ApiBody.errorMsg "Cannot unlock in setup mode"⟩) :=
  C1_setup_mode_rejects_lock_unlock initialState rfl

/-- C2: lock() computes delta = lockPosition - currentPosition, issues a
move exactly when the delta is non-zero, ends with currentPosition =
lockPosition, unconditionally sets pendingReturn and returns the final
position; setLockPosition() immediately followed by lock() issues no move
and leaves pendingReturn = true. -/
theorem C2_lock_is_delta_move (s : ControllerState) :
    (lock s).state.current_position = s.lock_position ∧
    (lock s).ret = s.lock_position ∧
    (lock s).state.pending_return_to_center = true ∧
    (lock s).moves =
      (if s.lock_position - s.current_position ≠ 0 then
        [s.lock_position - s.current_position]
      else []) ∧
    ∀ saveOk : Bool,
      (lock (setLockPosition saveOk s).state).moves = [] ∧
      (lock (setLockPosition saveOk s).state).state.pending_return_to_center = true := by
  unfold lock setLockPosition
  by_cases h : s.lock_position - s.current_position = 0
  · simp [h]
    omega
  · simp [h]

/-- C3: processReturnToCenter() is a no-op returning false when no return
is pending; otherwise it clears the flag, moves by -currentPosition only
when non-zero, ends at position 0 and returns true; a second consecutive
call returns false and issues no move. -/
theorem C3_processReturnToCenter_once (s : ControllerState) :
    (s.pending_return_to_center = false →
      processReturnToCenter s = ⟨s, [], false⟩) ∧
    (s.pending_return_to_center = true →
      (processReturnToCenter s).ret = true ∧
      (processReturnToCenter s).state.pending_return_to_center = false ∧
      (processReturnToCenter s).state.current_position = 0 ∧
      (processReturnToCenter s).moves =
        (if s.current_position ≠ 0 then [-s.current_position] else [])) ∧
    (processReturnToCenter (processReturnToCenter s).state).ret = false ∧
    (processReturnToCenter (processReturnToCenter s).state).moves = [] := by
  unfold processReturnToCenter
  by_cases hp : s.pending_return_to_center = false
  · simp [hp]
  · by_cases hc : s.current_position = 0
    · simp [hp, hc]
    · simp [hp, hc]

/-- Witness for C3 at a concrete pending state and a concrete idle state. -/
theorem C3_processReturnToCenter_once_witness :
    (processReturnToCenter ⟨80, 80, 0, LockMode.NORMAL, true⟩).ret = true ∧
    (processReturnToCenter ⟨80, 80, 0, LockMode.NORMAL, true⟩).state.current_position = 0 ∧
    processReturnToCenter ⟨0, 80, 0, LockMode.NORMAL, false⟩ =
      ⟨⟨0, 80, 0, LockMode.NORMAL, false⟩, [], false⟩ := by
  have h1 := C3_processReturnToCenter_once ⟨80, 80, 0, LockMode.NORMAL, true⟩
  have h2 := C3_processReturnToCenter_once ⟨0, 80, 0, LockMode.NORMAL, false⟩
  exact ⟨(h1.2.1 rfl).1, (h1.2.1 rfl).2.2.1, h2.1 rfl⟩

/-- C7: stepForward(a) followed by stepBackward(a) leaves currentPosition
unchanged, for every state and every step count (the embedded moveSteps
cannot fail, matching the no-DriverError assumption). -/
theorem C7_step_forward_backward_inverse (s : ControllerState) (a : Int) :
    (stepBackward (stepForward s a).state a).state.current_position
      = s.current_position := by
  unfold stepForward stepBackward
  by_cases h : a > 0
  · simp [h]
  · simp [h]

/-- C8: stepForward and stepBackward with steps <= 0 issue no move, leave
every field unchanged and return the current position (no error). -/
theorem C8_nonpositive_steps_noop (s : ControllerState) (n : Int)
    (h : n ≤ 0) :
    stepForward s n = ⟨s, [], s.current_position⟩ ∧
    stepBackward s n = ⟨s, [], s.current_position⟩ := by
  have h2 : ¬ n > 0 := by omega
  simp [stepForward, stepBackward, h2]

/-- Witness for C8 at steps = -3 on the initial state. -/
theorem C8_nonpositive_steps_noop_witness :
    stepForward initialState (-3) = ⟨initialState, [], initialState.current_position⟩ ∧
    stepBackward initialState (-3) = ⟨initialState, [], initialState.current_position⟩ :=
  C8_nonpositive_steps_noop initialState (-3) (by norm_num)

/-- C4: the controller starts in SETUP mode; after begin() loads the
persisted pair, mode is NORMAL iff lockPosition differs from
unlockPosition; with no prior calibration the load defaults both positions
to 0 and mode stays SETUP. -/
theorem C4_begin_mode_promotion (stored : Option (Int × Int)) :
    initialState.mode = LockMode.SETUP ∧
    ((begin stored initialState).mode = LockMode.NORMAL ↔
      (begin stored initialState).lock_position ≠
        (begin stored initialState).unlock_position) ∧
    (begin none initialState).lock_position = 0 ∧
    (begin none initialState).unlock_position = 0 ∧
    (begin none initialState).mode = LockMode.SETUP := by
  refine ⟨rfl, ?_, by simp [begin, loadFromStorage, initialState], by simp [begin, loadFromStorage, initialState], by simp [begin, loadFromStorage, initialState]⟩
  unfold begin loadFromStorage
  match stored with
  | none => simp [initialState]
  | some (lp, up) =>
      by_cases h : lp = up
      · simp [h, initialState]
      · simp [h]

/-- C5 counterexample: with the save failing, the set-lock-position request
still succeeds outright: the facade answers 200 with the new lock
position, and the controller-level call returns it normally; the failure
is visible only as the saveFailed log line, so no StorageError reaches
the caller, contrary to the claim. -/
theorem C5_storage_error_counterexample :
    postSetLock false ⟨7, 2, 3, LockMode.NORMAL, false⟩ =
      (⟨7, 7, 3, LockMode.NORMAL, false⟩, [StorageEvent.saveFailed],
        ⟨200, ApiBody.lockPos 7⟩) ∧
    (setLockPosition false ⟨7, 2, 3, LockMode.NORMAL, false⟩).ret = 7 := by
  constructor <;> rfl

/-- C5 amended: when the save fails, setLockPosition()/setUnlockPosition()
do not signal any error to the caller (the facade still responds 200 with
the new value; the failure is only logged), and the in-memory value is
still updated to currentPosition and takes effect for subsequent
lock()/unlock() calls. -/
theorem C5_save_failure_is_best_effort (s : ControllerState) :
    (setLockPosition false s).state.lock_position = s.current_position ∧
    (setLockPosition false s).storage = [StorageEvent.saveFailed] ∧
    (setLockPosition false s).ret = s.current_position ∧
    (postSetLock false s).2.2 = ⟨200, ApiBody.lockPos s.current_position⟩ ∧
    (lock (setLockPosition false s).state).state.current_position
      = s.current_position ∧
    (setUnlockPosition false s).state.unlock_position = s.current_position ∧
    (setUnlockPosition false s).storage = [StorageEvent.saveFailed] ∧
    (postSetUnlock false s).2.2 = ⟨200, ApiBody.unlockPos s.current_position⟩ ∧
    (unlock (setUnlockPosition false s).state).state.current_position
      = s.current_position := by
  unfold postSetLock postSetUnlock setLockPosition setUnlockPosition lock unlock saveToStorage
  simp

/-- C6: for every custom step request the step count issued to the motor is
clamped to [1, 2048]; forward requests issue exactly the clamped value,
backward requests its negation, and a custom request of 5000 is issued as
2048 steps. -/
theorem C6_custom_steps_clamped (s : ControllerState) (req : StepRequest)
    (hsize : req.size = "custom") :
    1 ≤ clampCustomSteps (req.steps.getD SMALL_STEP) ∧
    clampCustomSteps (req.steps.getD SMALL_STEP) ≤ 2048 ∧
    (req.direction = "fwd" →
      (postStep s req).2.1 = [clampCustomSteps (req.steps.getD SMALL_STEP)]) ∧
    (req.direction = "bwd" →
      (postStep s req).2.1 = [-(clampCustomSteps (req.steps.getD SMALL_STEP))]) ∧
    (req.steps = some 5000 → clampCustomSteps (req.steps.getD SMALL_STEP) = 2048) := by
  have h1 : 1 ≤ clampCustomSteps (req.steps.getD SMALL_STEP) :=
    le_min (le_max_right _ _) (by norm_num)
  have h2 : clampCustomSteps (req.steps.getD SMALL_STEP) ≤ 2048 :=
    min_le_right _ _
  have hpos : clampCustomSteps (req.steps.getD SMALL_STEP) > 0 := by omega
  refine ⟨h1, h2, ?_, ?_, ?_⟩
  · intro hd
    simp [postStep, hd, hsize, stepForward, hpos]
  · intro hd
    simp [postStep, hd, hsize, stepBackward, hpos]
  · intro hsteps
    simp [hsteps, clampCustomSteps]

/-- Witness for C6: a forward custom request of 5000 steps on the initial
state issues a single move of 2048 steps. -/
theorem C6_custom_steps_clamped_witness :
    (postStep initialState ⟨"fwd", "custom", some 5000⟩).2.1 = [2048] := by
  have h := C6_custom_steps_clamped initialState ⟨"fwd", "custom", some 5000⟩ rfl
  rw [h.2.2.1 rfl, h.2.2.2.2 rfl]

/-- C9 counterexample: setCenter() writes currentPosition (5 becomes 0)
while issuing no MotionDriver call, so currentPosition is not updated only
as a side effect of a completed move. -/
theorem C9_setCenter_counterexample :
    (runOp PublicOp.setCenterOp ⟨5, 0, 0, LockMode.SETUP, false⟩).2 = [] ∧
    (runOp PublicOp.setCenterOp ⟨5, 0, 0, LockMode.SETUP, false⟩).1.current_position
      ≠ (⟨5, 0, 0, LockMode.SETUP, false⟩ : ControllerState).current_position := by
  constructor
  · rfl
  · decide

/-- C9 amended: for every public operation except setCenter(), the change
in currentPosition equals the sum of the MotionDriver moves the operation
issues (in particular currentPosition is never written without a move);
setCenter() alone re-anchors currentPosition to 0 with no move. -/
theorem C9_position_only_moves_except_setCenter (op : PublicOp)
    (s : ControllerState) (h : op ≠ PublicOp.setCenterOp) :
    (runOp op s).1.current_position = s.current_position + ((runOp op s).2).sum := by
  cases op with
  | setCenterOp => exact absurd rfl h
  | stepForwardOp n =>
      unfold runOp stepForward
      by_cases hn : n > 0 <;> simp [hn]
  | stepBackwardOp n =>
      unfold runOp stepBackward
      by_cases hn : n > 0
      · simp [hn]
        omega
      · simp [hn]
  | setLockPositionOp saveOk => simp [runOp, setLockPosition]
  | setUnlockPositionOp saveOk => simp [runOp, setUnlockPosition]
  | lockOp =>
      unfold runOp lock
      by_cases hd : s.lock_position - s.current_position = 0 <;> simp [hd]
  | unlockOp =>
      unfold runOp unlock
      by_cases hd : s.unlock_position - s.current_position = 0 <;> simp [hd]
  | processReturnToCenterOp =>
      unfold runOp processReturnToCenter
      by_cases hp : s.pending_return_to_center = false
      · simp [hp]
      · by_cases hc : s.current_position = 0 <;> simp [hp, hc]
  | setModeOp m => simp [runOp, setMode]
  | setModeFromStringOp str =>
      unfold runOp setModeFromString
      by_cases h1 : str = "setup"
      · simp [h1]
      · by_cases h2 : str = "normal" <;> simp [h1, h2]

/-- Witness for C9: a lock() from position 0 with lockPosition 80 changes
currentPosition by exactly the issued move. -/
theorem C9_position_only_moves_except_setCenter_witness :
    (runOp PublicOp.lockOp ⟨0, 80, 0, LockMode.NORMAL, false⟩).1.current_position
      = (⟨0, 80, 0, LockMode.NORMAL, false⟩ : ControllerState).current_position
        + ((runOp PublicOp.lockOp ⟨0, 80, 0, LockMode.NORMAL, false⟩).2).sum :=
  C9_position_only_moves_except_setCenter PublicOp.lockOp
    ⟨0, 80, 0, LockMode.NORMAL, false⟩ (by decide)

/-- C10: for every string other than "setup" and "normal",
setModeFromString returns false and leaves the whole controller state
unchanged, and the facade answers 400 with an error body and mutates
nothing. -/
theorem C10_invalid_mode_string_rejected (s : ControllerState) (str : String)
    (h1 : str ≠ "setup") (h2 : str ≠ "normal") :
    setModeFromString s str = (s, false) ∧
    (postMode s str).1 = s ∧
    (postMode s str).2.status = 400 := by
  have hm : setModeFromString s str = (s, false) := by
    simp [setModeFromString, h1, h2]
  refine ⟨hm, ?_, ?_⟩ <;>
    · unfold postMode
      by_cases h0 : str = "" <;> simp [h0, hm]

/-- Witness for C10 at the unrecognized mode string "banana". -/
theorem C10_invalid_mode_string_rejected_witness :
    setModeFromString initialState "banana" = (initialState, false) ∧
    (postMode initialState "banana").1 = initialState ∧
    (postMode initialState "banana").2.status = 400 :=
  C10_invalid_mode_string_rejected initialState "banana" (by decide) (by decide)

end AutoLock
